import Mathlib

/-!
Verification of the decision-aggregation, candidate-screening and risk-scoring
logic of the quant-ai repository.  Numeric values (JavaScript numbers) are
modelled as rationals; the embedded definitions follow the TypeScript source
files `frontend/app/components/AgentDecisions.tsx` (current panel),
the legacy panel component, and the `RiskGauge` component.
-/

namespace QuantAI

/-- JavaScript `Math.round`: round to the nearest integer, halves toward
positive infinity, i.e. `⌊x + 1/2⌋`. -/
def jsRound (x : ℚ) : ℤ := ⌊x + 1 / 2⌋

/-- Directional signal of one strategy verdict
(bullish / bearish / neutral in `AgentDecisions.tsx`). -/
inductive Signal where
  | bullish
  | bearish
  | neutral
  deriving DecidableEq, Repr

/-- One strategy verdict (`interface LLMSignal` in `AgentDecisions.tsx`). -/
structure LLMSignal where
  signal : Signal
  confidence : ℚ
  reasoning : String
  deriving DecidableEq, Repr

/-- Result record of `calcOverall` in `AgentDecisions.tsx`. -/
structure Overall where
  signal : Signal
  confidence : ℤ
  bullish : ℕ
  bearish : ℕ
  neutral : ℕ
  deriving DecidableEq, Repr

/-- Embedding of `calcOverall` (`AgentDecisions.tsx`, lines 84-94).
`Math.ceil(n / 2)` on a natural number `n` is `(n + 1) / 2` in natural
division (see `ceil_half_eq`); `Math.round` is `jsRound`. -/
def calcOverall (vals : List LLMSignal) : Overall :=
  if vals.length = 0 then ⟨Signal.neutral, 0, 0, 0, 0⟩ else
  let bullish := (vals.filter fun v => v.signal == Signal.bullish).length
  let bearish := (vals.filter fun v => v.signal == Signal.bearish).length
  let neutral := vals.length - bullish - bearish
  let majority := (vals.length + 1) / 2
  let signal :=
    if bullish ≥ majority then Signal.bullish
    else if bearish ≥ majority then Signal.bearish
    else Signal.neutral
  let confidence := jsRound ((vals.map (fun v => v.confidence)).sum / (vals.length : ℚ))
  ⟨signal, confidence, bullish, bearish, neutral⟩

/-- A five-verdict set split 3 bullish / 1 bearish / 1 neutral. -/
def fiveSplit311 : List LLMSignal :=
  [⟨Signal.bullish, 80, "a"⟩, ⟨Signal.bullish, 70, "b"⟩, ⟨Signal.bullish, 60, "c"⟩,
   ⟨Signal.bearish, 50, "d"⟩, ⟨Signal.neutral, 40, "e"⟩]

/-- A five-verdict set split 2 bullish / 2 bearish / 1 neutral. -/
def fiveSplit221 : List LLMSignal :=
  [⟨Signal.bullish, 80, "a"⟩, ⟨Signal.bullish, 70, "b"⟩, ⟨Signal.bearish, 60, "c"⟩,
   ⟨Signal.bearish, 50, "d"⟩, ⟨Signal.neutral, 40, "e"⟩]

/-- The per-agent result map returned by the `/api/agents` backend call:
agent name paired with the per-stock-code verdicts of that agent
(`Record<string, Record<string, LLMSignal>>` in `AgentDecisions.tsx`). -/
abbrev AgentSignalsMap := List (String × List (String × LLMSignal))

/-- Embedding of the verdict-collection loop of `fetchAnalysis`
(`AgentDecisions.tsx`, lines 168-173): an agent contributes a verdict for
`code` exactly when its result record contains `code`. -/
def collectSignals (m : AgentSignalsMap) (code : String) : List (String × LLMSignal) :=
  m.filterMap fun p => (p.2.lookup code).map fun s => (p.1, s)

/-- A holding row of the current panel
(`holdings` prop of `AgentDecisions.tsx`: `code`, `name`, `cost`, optional
`shares`). -/
structure Holding where
  code : String
  name : String
  cost : ℚ
  shares : Option ℚ
  deriving DecidableEq, Repr

/-- A quote row (`interface StockQuote` in `AgentDecisions.tsx`). -/
structure StockQuote where
  code : String
  current : ℚ
  percent : ℚ
  chg : ℚ
  high : ℚ
  low : ℚ
  «open» : ℚ
  last_close : ℚ
  pe_ttm : Option ℚ
  pb : Option ℚ
  deriving DecidableEq, Repr

/-- A per-holding analysis row (`interface HoldingAnalysis` in
`AgentDecisions.tsx`; the `agentSignals` record is kept as an association
list). -/
structure HoldingAnalysis where
  code : String
  name : String
  price : ℚ
  change : ℚ
  pnlPct : ℚ
  overallSignal : Signal
  overallConfidence : ℤ
  agentSignals : List (String × LLMSignal)
  deriving DecidableEq, Repr

/-- Embedding of the per-holding body of `fetchAnalysis`
(`AgentDecisions.tsx`, lines 161-186): the quote is looked up in the batched
response, `price = q?.current ?? 0`, `change = q?.percent ?? 0`, and
`pnlPct = cost > 0 ? (price - cost) / cost * 100 : 0`. -/
def analyzeHolding (allQuotes : List StockQuote) (m : AgentSignalsMap)
    (h : Holding) : HoldingAnalysis :=
  let q := allQuotes.find? fun d => d.code == h.code
  let price := (q.map fun x => x.current).getD 0
  let change := (q.map fun x => x.percent).getD 0
  let pnlPct := if h.cost > 0 then ((price - h.cost) / h.cost) * 100 else 0
  let agentSignals := collectSignals m h.code
  let overall := calcOverall (agentSignals.map Prod.snd)
  ⟨h.code, h.name, price, change, pnlPct, overall.signal, overall.confidence, agentSignals⟩

/-- Embedding of the `results` construction of `fetchAnalysis`
(`AgentDecisions.tsx`, lines 161-186): every holding is mapped, none is
skipped. -/
def fetchAnalysisResults (holdings : List Holding) (allQuotes : List StockQuote)
    (m : AgentSignalsMap) : List HoldingAnalysis :=
  holdings.map (analyzeHolding allQuotes m)

/-- A holding whose quote is missing from the batched quote response. -/
def orphanHolding : Holding := ⟨"600000", "X", 100, none⟩

/-! ### Legacy panel (the older `AgentDecisions` component)

Shallow embedding of the earlier evolutionary version of the decision panel:
five in-component analyst heuristics, a per-holding vote, and the hot-sector
buy-candidate screener.  Rationale strings and presentational fields (icons,
colors) are omitted; every field that feeds a signal, confidence or score is
embedded. -/

namespace Legacy

/-- Trade signal of the legacy panel (buy / sell / hold). -/
inductive TradeSignal where
  | buy
  | sell
  | hold
  deriving DecidableEq, Repr

/-- Quote row of the legacy panel (its `StockQuote` interface; the optional
`volume`/`amount`/`turnover_rate` fields are unused by the analysts). -/
structure StockQuote where
  code : String
  current : ℚ
  percent : ℚ
  chg : ℚ
  high : ℚ
  low : ℚ
  «open» : ℚ
  last_close : ℚ
  deriving DecidableEq, Repr

/-- One sector record of the market-context response (`code`, `name`,
`change_pct`, `net_inflow`). -/
structure Sector where
  code : String
  name : String
  change_pct : ℚ
  net_inflow : ℚ
  deriving DecidableEq, Repr

/-- The market-context snapshot: the Shanghai index entry
(the entry of `marketData.indices` at index code 000001, `none` when absent) and the sector list,
ordered by inflow descending upstream. -/
structure MarketData where
  indices_sh : Option ℚ
  sectors : List Sector
  deriving DecidableEq, Repr

/-- One analyst verdict (`AgentAnalysis` without the presentational
`icon`/`color`/`bgColor` fields and the rationale `points`). -/
structure AgentAnalysis where
  agent : String
  signal : TradeSignal
  confidence : ℚ
  deriving DecidableEq, Repr

/-- A holding row of the legacy panel (`HOLDINGS` entries). -/
structure Holding where
  code : String
  name : String
  cost : ℚ
  deriving DecidableEq, Repr

/-- Embedding of `runMarketAnalyst`: index tone, top-sector resonance and
sector breadth drive the score. -/
def runMarketAnalyst (q : StockQuote) (md : MarketData) : AgentAnalysis :=
  let shChange := md.indices_sh.getD 0
  let s1 : ℤ := if shChange > 0.5 then 2 else if shChange < -0.5 then -2 else 0
  let s2 : ℤ :=
    match md.sectors.head? with
    | some _ => if q.percent > 0 ∧ q.chg > 0 then 1 else 0
    | none => 0
  let upSectors := (md.sectors.filter fun s => s.change_pct > 0).length
  let ratio : ℚ :=
    if md.sectors.length > 0 then (upSectors : ℚ) / (md.sectors.length : ℚ) else 0.5
  let s3 : ℤ := if ratio > 0.7 then 1 else if ratio < 0.3 then -1 else 0
  let score := s1 + s2 + s3
  let signal :=
    if score ≥ 2 then TradeSignal.buy
    else if score ≤ -2 then TradeSignal.sell else TradeSignal.hold
  ⟨"MarketAnalyst", signal, min 85 (55 + (|score| : ℚ) * 8)⟩

/-- Embedding of `runTechAnalyst`: intraday position and day change drive the
score (the amplitude branch adds no score). -/
def runTechAnalyst (q : StockQuote) : AgentAnalysis :=
  let dayRange : ℚ :=
    if q.high > q.low then (q.current - q.low) / (q.high - q.low) * 100 else 50
  let s1 : ℤ := if dayRange > 75 then 1 else if dayRange < 25 then -1 else 0
  let s2 : ℤ :=
    if q.percent > 5 then 2 else if q.percent > 2 then 1
    else if q.percent < -5 then -2 else if q.percent < -2 then -1 else 0
  let score := s1 + s2
  let signal :=
    if score ≥ 2 then TradeSignal.buy
    else if score ≤ -2 then TradeSignal.sell else TradeSignal.hold
  ⟨"TechAnalyst", signal, min 88 (58 + (|score| : ℚ) * 8)⟩

/-- Embedding of `runFundAnalyst`: only the cumulative P&L branch scores (the
cost-ratio and volume branches add no score). -/
def runFundAnalyst (q : StockQuote) (h : Holding) : AgentAnalysis :=
  let pnlPct := (q.current - h.cost) / h.cost * 100
  let score : ℤ :=
    if pnlPct > 30 then -1 else if pnlPct > 10 then 1
    else if pnlPct > 0 then 0 else if pnlPct < -10 then -2 else 0
  let signal :=
    if score ≥ 1 then TradeSignal.buy
    else if score ≤ -2 then TradeSignal.sell else TradeSignal.hold
  ⟨"FundAnalyst", signal, min 80 (52 + (|score| : ℚ) * 8)⟩

/-- Embedding of `runSentimentAnalyst`: day change, top-sector inflow above
5e8 and index tone drive the score. -/
def runSentimentAnalyst (q : StockQuote) (md : MarketData) : AgentAnalysis :=
  let s1 : ℤ :=
    if q.percent > 7 then 2 else if q.percent > 3 then 1
    else if q.percent < -5 then -1 else 0
  let s2 : ℤ :=
    match md.sectors.head? with
    | some ts => if ts.net_inflow > 500000000 then 1 else 0
    | none => 0
  let s3 : ℤ :=
    match md.indices_sh with
    | some v => if v > 1 then 1 else if v < -1 then -1 else 0
    | none => 0
  let score := s1 + s2 + s3
  let signal :=
    if score ≥ 2 then TradeSignal.buy
    else if score ≤ -2 then TradeSignal.sell else TradeSignal.hold
  ⟨"SentimentAnalyst", signal, min 82 (52 + (|score| : ℚ) * 9)⟩

/-- Embedding of `runRiskManager`: take-profit, stop-loss and amplitude
branches drive the score; the signal is `sell` at score ≤ -3 and `hold`
otherwise (both remaining source branches yield `hold`). -/
def runRiskManager (q : StockQuote) (h : Holding) (_allQuotes : List StockQuote) :
    AgentAnalysis :=
  let pnlPct := (q.current - h.cost) / h.cost * 100
  let amplitude : ℚ := if q.high > 0 then (q.high - q.low) / q.last_close * 100 else 0
  let s1 : ℤ := if pnlPct > 25 then -2 else if pnlPct > 15 then -1 else 0
  let s2 : ℤ := if pnlPct < -8 then -3 else if pnlPct < -5 then -1 else 0
  let s3 : ℤ := if amplitude > 6 then -1 else 0
  let score := s1 + s2 + s3
  let signal := if score ≤ -3 then TradeSignal.sell else TradeSignal.hold
  ⟨"RiskManager", signal, min 85 (60 + (|score| : ℚ) * 6)⟩

/-- A per-holding analysis row of the legacy panel (`StockAnalysis`). -/
structure StockAnalysis where
  code : String
  name : String
  price : ℚ
  change : ℚ
  pnlPct : ℚ
  overallSignal : TradeSignal
  overallConfidence : ℤ
  agents : List AgentAnalysis
  deriving DecidableEq, Repr

/-- Embedding of `buildStockAnalysis`: run the five analysts, take `sell` on
at least 3 sell votes, else `buy` on at least 3 buy votes, else `hold`;
overall confidence is the rounded mean of the five confidences. -/
def buildStockAnalysis (q : StockQuote) (h : Holding) (md : MarketData)
    (allQuotes : List StockQuote) : StockAnalysis :=
  let pnlPct := (q.current - h.cost) / h.cost * 100
  let agents := [runMarketAnalyst q md, runTechAnalyst q, runFundAnalyst q h,
    runSentimentAnalyst q md, runRiskManager q h allQuotes]
  let buyVotes := (agents.filter fun a => a.signal == TradeSignal.buy).length
  let sellVotes := (agents.filter fun a => a.signal == TradeSignal.sell).length
  let overallSignal :=
    if sellVotes ≥ 3 then TradeSignal.sell
    else if buyVotes ≥ 3 then TradeSignal.buy else TradeSignal.hold
  let overallConfidence := jsRound ((agents.map fun a => a.confidence).sum / (agents.length : ℚ))
  ⟨q.code, h.name, q.current, q.percent, pnlPct, overallSignal, overallConfidence, agents⟩

/-- Embedding of the holdings loop of the legacy `fetchAll`: a holding whose
quote is not found in the batched response maps to `null` and is dropped by
`.filter(Boolean)`. -/
def fetchAllResults (holdings : List Holding) (allQuotes : List StockQuote)
    (md : MarketData) : List StockAnalysis :=
  holdings.filterMap fun h =>
    (allQuotes.find? fun d => d.code == h.code).map
      fun q => buildStockAnalysis q h md allQuotes

/-- One row of the `/api/sector-stocks` response used by the screener. -/
structure SectorStock where
  code : String
  name : String
  price : ℚ
  changePct : ℚ
  mainNetInflow : ℚ
  deriving DecidableEq, Repr

/-- The recommendation record of the screener (`BuyCandidate`; the rationale
`reasons` strings are omitted). -/
structure BuyCandidate where
  code : String
  name : String
  price : ℚ
  change : ℚ
  sectorName : String
  score : ℚ
  deriving DecidableEq, Repr

/-- Embedding of `available` in `fetchAll`: the top-sector stocks minus every
currently-held code (`!holdingCodes.has(s.code)`). -/
def availablePool (stocks : List SectorStock) (holdings : List Holding) :
    List SectorStock :=
  stocks.filter fun s => decide (s.code ∉ holdings.map fun h => h.code)

/-- The eligibility filter of `fetchAll`:
`s.changePct > 1 && s.changePct < 9 && s.mainNetInflow > 0`. -/
def eligible (s : SectorStock) : Bool :=
  decide (s.changePct > 1 ∧ s.changePct < 9 ∧ s.mainNetInflow > 0)

/-- Embedding of `candidates` in `fetchAll`: the eligible part of the pool,
sorted by main net inflow descending (JavaScript `sort` is stable). -/
def screenCandidates (stocks : List SectorStock) (holdings : List Holding) :
    List SectorStock :=
  ((availablePool stocks holdings).filter eligible).mergeSort
    fun a b => decide (b.mainNetInflow ≤ a.mainNetInflow)

/-- Embedding of `const pick = candidates[0] || available[0]`. -/
def screenPick (stocks : List SectorStock) (holdings : List Holding) :
    Option SectorStock :=
  match (screenCandidates stocks holdings).head? with
  | some c => some c
  | none => (availablePool stocks holdings).head?

/-- Embedding of the `setBuyCandidate` payload of `fetchAll`:
the recommendation is produced iff a pick exists, with
`score = Math.min(85, 60 + pick.mainNetInflow / 1e8 * 2)`. -/
def screenBuyCandidate (stocks : List SectorStock) (holdings : List Holding)
    (sectorName : String) : Option BuyCandidate :=
  (screenPick stocks holdings).map fun pick =>
    ⟨pick.code, pick.name, pick.price, pick.changePct, sectorName,
     min 85 (60 + pick.mainNetInflow / 100000000 * 2)⟩

end Legacy

/-! ### Risk gauge (`RiskGauge` component)

Shallow embedding of `calcMetrics` and the risk-level banding: exposure
(`positionRatio`), cost-based concentration, aggregate P&L percent, the
tiered score increments clamped by `Math.min(score, 100)`, and the fallback
score 35 used when no usable portfolio is supplied (`result.score ?? 35`). -/

namespace RiskGauge

/-- One position row of the portfolio summary. -/
structure Position where
  code : String
  name : String
  cost : ℚ
  shares : ℚ
  deriving DecidableEq, Repr

/-- The portfolio summary consumed by the risk gauge
(`interface PortfolioSummary`). -/
structure PortfolioSummary where
  cash : ℚ
  totalAssets : ℚ
  totalMarketValue : ℚ
  totalPnl : ℚ
  todayPnl : ℚ
  positions : List Position
  deriving DecidableEq, Repr

/-- `positionRatio = totalMarketValue / totalAssets * 100`. -/
def positionRatio (p : PortfolioSummary) : ℚ :=
  p.totalMarketValue / p.totalAssets * 100

/-- `Math.max(...positions.map(p => p.shares * p.cost))`, and 0 for an empty
position list. -/
def maxPositionValue (positions : List Position) : ℚ :=
  match positions.map fun x => x.shares * x.cost with
  | [] => 0
  | v :: vs => vs.foldl max v

/-- `concentration = maxPositionValue / totalAssets * 100` (cost basis, not
market value). -/
def concentration (p : PortfolioSummary) : ℚ :=
  maxPositionValue p.positions / p.totalAssets * 100

/-- `totalCost = Σ shares * cost`. -/
def totalCost (p : PortfolioSummary) : ℚ :=
  (p.positions.map fun x => x.shares * x.cost).sum

/-- `currentPnlPct = totalCost > 0 ? totalPnl / totalCost * 100 : 0`. -/
def currentPnlPct (p : PortfolioSummary) : ℚ :=
  if totalCost p > 0 then p.totalPnl / totalCost p * 100 else 0

/-- The tiered score of `calcMetrics`: base 20, exposure increments
(>85 → +20, else >70 → +10), concentration increments (>50 → +25, else
>30 → +10), loss increments (< -5 → +20, else < -3 → +10), capped by
`Math.min(score, 100)`. -/
def riskScoreFromMetrics (pr conc pnl : ℚ) : ℚ :=
  min (20
    + (if pr > 85 then 20 else if pr > 70 then 10 else 0)
    + (if conc > 50 then 25 else if conc > 30 then 10 else 0)
    + (if pnl < -5 then 20 else if pnl < -3 then 10 else 0)) 100

/-- `calcMetrics` returns a scored record only for a portfolio with positive
total assets; otherwise it returns the default metric rows without a score. -/
def calcMetricsScore : Option PortfolioSummary → Option ℚ
  | none => none
  | some p =>
      if p.totalAssets ≤ 0 then none
      else some (riskScoreFromMetrics (positionRatio p) (concentration p) (currentPnlPct p))

/-- The displayed score: `(result as any).score ?? 35`. -/
def targetScore (portfolio : Option PortfolioSummary) : ℚ :=
  (calcMetricsScore portfolio).getD 35

/-- Risk band of the gauge. -/
inductive RiskLevel where
  | low
  | medium
  | high
  deriving DecidableEq, Repr

/-- `riskScore < 30 ? low : riskScore < 60 ? medium : high`. -/
def riskLevel (score : ℚ) : RiskLevel :=
  if score < 30 then RiskLevel.low
  else if score < 60 then RiskLevel.medium
  else RiskLevel.high

end RiskGauge

/-- The portfolio of the spec scenario: one position of cost 100 × 10 shares
at current price 130, total assets 2000 (market value 1300, P&L +300). -/
def scenarioPortfolio : RiskGauge.PortfolioSummary :=
  ⟨700, 2000, 1300, 300, 0, [⟨"600000", "X", 100, 10⟩]⟩

/-- A held holding used as a screener example. -/
def exHeldHolding : Legacy.Holding := ⟨"300394", "TFC", 280⟩

/-- A not-held sector stock that fails the eligibility filter
(change 0% is not in (1, 9) and the inflow is negative). -/
def exIneligibleStock : Legacy.SectorStock := ⟨"600519", "MT", 1700, 0, -5000000⟩

/-- Natural-number rendering of `ceil(n / 2)`. -/
theorem ceil_half_eq (n : ℕ) : ⌈(n : ℚ) / 2⌉₊ = (n + 1) / 2 := by
  rcases Nat.eq_zero_or_pos n with h0 | h0
  · subst h0; simp
  · have hm : (n + 1) / 2 ≠ 0 := by omega
    rw [Nat.ceil_eq_iff hm]
    constructor
    · rw [lt_div_iff₀ (by norm_num : (0 : ℚ) < 2)]
      have h : ((n + 1) / 2 - 1) * 2 < n := by omega
      exact_mod_cast h
    · rw [div_le_iff₀ (by norm_num : (0 : ℚ) < 2)]
      have h : n ≤ ((n + 1) / 2) * 2 := by omega
      exact_mod_cast h

/-- C1: for a non-empty verdict set, the aggregated signal is bullish when the
bullish vote count reaches `ceil(n/2)`, else bearish when the bearish count
does, else neutral; the overall confidence is the arithmetic mean of the
present confidences rounded to the nearest integer; the empty set aggregates
to neutral with confidence 0; and the two five-verdict splits 3/1/1 and 2/2/1
aggregate to bullish and neutral respectively. -/
theorem calcOverall_majority_and_mean (vals : List LLMSignal) (hne : vals ≠ []) :
    ((calcOverall vals).signal =
      if (vals.filter fun v => v.signal == Signal.bullish).length ≥ ⌈(vals.length : ℚ) / 2⌉₊
        then Signal.bullish
      else if (vals.filter fun v => v.signal == Signal.bearish).length ≥ ⌈(vals.length : ℚ) / 2⌉₊
        then Signal.bearish
      else Signal.neutral)
    ∧ (calcOverall vals).confidence
        = jsRound ((vals.map (fun v => v.confidence)).sum / (vals.length : ℚ))
    ∧ calcOverall [] = ⟨Signal.neutral, 0, 0, 0, 0⟩
    ∧ (calcOverall fiveSplit311).signal = Signal.bullish
    ∧ (calcOverall fiveSplit221).signal = Signal.neutral := by
  have hlen : vals.length ≠ 0 := fun h => hne (List.length_eq_zero.mp h)
  refine ⟨?_, ?_, by rfl, by decide, by decide⟩
  · rw [ceil_half_eq]
    simp only [calcOverall, if_neg hlen]
  · simp only [calcOverall, if_neg hlen]

/-- Witness for C1 at the concrete five-verdict 3/1/1 split. -/
theorem calcOverall_majority_and_mean_witness :
    fiveSplit311 ≠ [] ∧ (calcOverall fiveSplit311).signal = Signal.bullish :=
  ⟨by decide, (calcOverall_majority_and_mean fiveSplit311 (by decide)).2.2.2.1⟩

theorem filter_bullish_add_bearish_le (vals : List LLMSignal) :
    (vals.filter fun v => v.signal == Signal.bullish).length
      + (vals.filter fun v => v.signal == Signal.bearish).length ≤ vals.length := by
  induction vals with
  | nil => simp
  | cons v t ih =>
      cases hv : v.signal <;>
        simp +decide [List.filter_cons, hv] <;>
        omega

theorem length_collectSignals (m : AgentSignalsMap) (code : String) :
    (collectSignals m code).length
      = (m.filter fun p => ((p.2).lookup code).isSome).length := by
  induction m with
  | nil => rfl
  | cons p t ih =>
      simp only [collectSignals] at ih ⊢
      rw [List.filterMap_cons, List.filter_cons]
      cases h : List.lookup code p.2 <;> simp [h, ih]

/-- C2: the vote tally produced by the aggregator always sums to the number of
verdicts actually present, and the set of present verdicts for a stock code
consists exactly of the agents whose result record resolves that code —
agents without a verdict contribute to no bucket and are not in the
denominator. -/
theorem calcOverall_tally (vals : List LLMSignal) (m : AgentSignalsMap) (code : String) :
    ((calcOverall vals).bullish + (calcOverall vals).bearish + (calcOverall vals).neutral
        = vals.length)
    ∧ ((collectSignals m code).map Prod.snd).length
        = (m.filter fun p => ((p.2).lookup code).isSome).length := by
  constructor
  · by_cases h : vals.length = 0
    · simp [calcOverall, h]
    · have hle := filter_bullish_add_bearish_le vals
      simp only [calcOverall, if_neg h]
      omega
  · rw [List.length_map]
    exact length_collectSignals m code

/-- Counterexample to C3: in the current analyzer (`fetchAnalysis`), a holding
whose quote cannot be resolved is not skipped — it is kept in the produced
analysis with its price and change silently defaulted to 0 (and a P&L of
-100% computed against the zero price). -/
theorem fetchAnalysis_defaults_to_zero :
    (fetchAnalysisResults [orphanHolding] [] []).length = 1
    ∧ analyzeHolding [] [] orphanHolding ∈ fetchAnalysisResults [orphanHolding] [] []
    ∧ (analyzeHolding [] [] orphanHolding).code = "600000"
    ∧ (analyzeHolding [] [] orphanHolding).price = 0
    ∧ (analyzeHolding [] [] orphanHolding).change = 0
    ∧ (analyzeHolding [] [] orphanHolding).pnlPct = -100 := by
  refine ⟨rfl, by simp [fetchAnalysisResults], rfl, rfl, rfl, ?_⟩
  show (if (100 : ℚ) > 0 then (((0 : ℚ) - 100) / 100) * 100 else 0) = -100
  norm_num

/-- C3 (amended): in the current analyzer (`fetchAnalysis`) a holding whose
quote cannot be resolved is not skipped: it stays in the produced analysis
(one row per holding) with price and change silently defaulted to 0; in the
legacy analyzer (`fetchAll`) such a holding is silently dropped, so every
produced analysis row carries the code of a quote that was actually
resolved. -/
theorem holdingAnalyzer_missing_quote_behavior (hs : List Holding)
    (qs : List StockQuote) (m : AgentSignalsMap) (h : Holding)
    (hmem : h ∈ hs) (hq : qs.find? (fun d => d.code == h.code) = none) :
    (fetchAnalysisResults hs qs m).length = hs.length
    ∧ analyzeHolding qs m h ∈ fetchAnalysisResults hs qs m
    ∧ (analyzeHolding qs m h).price = 0
    ∧ (analyzeHolding qs m h).change = 0
    ∧ ∀ (hs2 : List Legacy.Holding) (qs2 : List Legacy.StockQuote)
        (md : Legacy.MarketData) (a : Legacy.StockAnalysis),
        a ∈ Legacy.fetchAllResults hs2 qs2 md → ∃ q ∈ qs2, a.code = q.code := by
  refine ⟨List.length_map _ _, List.mem_map_of_mem _ hmem, ?_, ?_, ?_⟩
  · simp [analyzeHolding, hq]
  · simp [analyzeHolding, hq]
  · intro hs2 qs2 md a ha
    rw [Legacy.fetchAllResults, List.mem_filterMap] at ha
    obtain ⟨h2, _, hfq⟩ := ha
    cases hfind : qs2.find? fun d => d.code == h2.code with
    | none => simp [hfind] at hfq
    | some q =>
        rw [hfind] at hfq
        refine ⟨q, List.mem_of_find?_eq_some hfind, ?_⟩
        simp only [Option.map_some', Option.some.injEq] at hfq
        rw [← hfq]
        rfl

/-- Witness for C3 (amended) at the concrete orphan holding. -/
theorem holdingAnalyzer_missing_quote_behavior_witness :
    orphanHolding ∈ [orphanHolding]
    ∧ (fetchAnalysisResults [orphanHolding] [] []).length = 1
    ∧ (analyzeHolding [] [] orphanHolding).price = 0 :=
  ⟨by decide,
   (holdingAnalyzer_missing_quote_behavior [orphanHolding] [] [] orphanHolding
      (by decide) rfl).1,
   (holdingAnalyzer_missing_quote_behavior [orphanHolding] [] [] orphanHolding
      (by decide) rfl).2.2.1⟩

/-- C4: when no candidate in the not-currently-held pool passes the
eligibility filter, the screener falls back to the unfiltered pool, and it
produces a recommendation whenever that pool is non-empty. -/
theorem screener_fallback_nonempty (stocks : List Legacy.SectorStock)
    (holdings : List Legacy.Holding) (sectorName : String)
    (hfilt : (Legacy.availablePool stocks holdings).filter Legacy.eligible = [])
    (hne : Legacy.availablePool stocks holdings ≠ []) :
    Legacy.screenPick stocks holdings = (Legacy.availablePool stocks holdings).head?
    ∧ (Legacy.screenBuyCandidate stocks holdings sectorName).isSome := by
  have hcand : Legacy.screenCandidates stocks holdings = [] := by
    rw [Legacy.screenCandidates, hfilt, List.mergeSort_nil]
  have hpick : Legacy.screenPick stocks holdings
      = (Legacy.availablePool stocks holdings).head? := by
    rw [Legacy.screenPick, hcand]
    rfl
  refine ⟨hpick, ?_⟩
  rw [Legacy.screenBuyCandidate, hpick]
  cases hap : Legacy.availablePool stocks holdings with
  | nil => exact absurd hap hne
  | cons a t => simp

/-- Witness for C4 at a one-stock pool whose only entry is ineligible. -/
theorem screener_fallback_nonempty_witness :
    (Legacy.availablePool [exIneligibleStock] [exHeldHolding]).filter Legacy.eligible = []
    ∧ Legacy.availablePool [exIneligibleStock] [exHeldHolding] ≠ []
    ∧ (Legacy.screenBuyCandidate [exIneligibleStock] [exHeldHolding] "BK1").isSome :=
  ⟨by decide, by decide,
   (screener_fallback_nonempty [exIneligibleStock] [exHeldHolding] "BK1"
      (by decide) (by decide)).2⟩

/-- C5: a currently-held code is never in the candidate pool of the screener, is
never the pick, and is never the produced buy recommendation. -/
theorem screener_excludes_held (stocks : List Legacy.SectorStock)
    (holdings : List Legacy.Holding) (sectorName : String) (h : Legacy.Holding)
    (hmem : h ∈ holdings) :
    (∀ s ∈ Legacy.availablePool stocks holdings, s.code ≠ h.code)
    ∧ (∀ pick, Legacy.screenPick stocks holdings = some pick → pick.code ≠ h.code)
    ∧ (∀ c, Legacy.screenBuyCandidate stocks holdings sectorName = some c
        → c.code ≠ h.code) := by
  have hpool : ∀ s ∈ Legacy.availablePool stocks holdings, s.code ≠ h.code := by
    intro s hs heq
    rw [Legacy.availablePool, List.mem_filter] at hs
    exact of_decide_eq_true hs.2
      (heq ▸ List.mem_map_of_mem (fun h2 => h2.code) hmem)
  have hpick : ∀ pick, Legacy.screenPick stocks holdings = some pick
      → pick ∈ Legacy.availablePool stocks holdings := by
    intro pick hp
    rw [Legacy.screenPick] at hp
    cases hc : (Legacy.screenCandidates stocks holdings).head? with
    | some c =>
        rw [hc] at hp
        simp only [Option.some.injEq] at hp
        subst hp
        have hcmem : c ∈ Legacy.screenCandidates stocks holdings :=
          List.mem_of_mem_head? (by rw [hc]; exact Option.mem_def.mpr rfl)
        rw [Legacy.screenCandidates, List.mem_mergeSort] at hcmem
        exact List.mem_of_mem_filter hcmem
    | none =>
        rw [hc] at hp
        exact List.mem_of_mem_head? (Option.mem_def.mpr hp)
  refine ⟨hpool, fun pick hp => hpool _ (hpick pick hp), ?_⟩
  intro c hc
  rw [Legacy.screenBuyCandidate, Option.map_eq_some'] at hc
  obtain ⟨pick, hp, hcc⟩ := hc
  rw [← hcc]
  exact hpool _ (hpick pick hp)

/-- Witness for C5 at a concrete held holding. -/
theorem screener_excludes_held_witness :
    exHeldHolding ∈ [exHeldHolding]
    ∧ ∀ s ∈ Legacy.availablePool [exIneligibleStock] [exHeldHolding],
        s.code ≠ exHeldHolding.code :=
  ⟨by decide,
   (screener_excludes_held [exIneligibleStock] [exHeldHolding] "BK1"
      exHeldHolding (by decide)).1⟩

theorem riskScoreFromMetrics_eq_clamp (pr conc pnl : ℚ) :
    RiskGauge.riskScoreFromMetrics pr conc pnl
      = max 0 (min (20
          + (if pr > 85 then 20 else if pr > 70 then 10 else 0)
          + (if conc > 50 then 25 else if conc > 30 then 10 else 0)
          + (if pnl < -5 then 20 else if pnl < -3 then 10 else 0)) 100) := by
  rw [RiskGauge.riskScoreFromMetrics, eq_comm, max_eq_right]
  exact le_min (by split_ifs <;> norm_num) (by norm_num)

theorem riskScoreFromMetrics_bounds (pr conc pnl : ℚ) :
    20 ≤ RiskGauge.riskScoreFromMetrics pr conc pnl
    ∧ RiskGauge.riskScoreFromMetrics pr conc pnl ≤ 85 := by
  rw [RiskGauge.riskScoreFromMetrics]
  exact ⟨le_min (by split_ifs <;> norm_num) (by norm_num),
    le_trans (min_le_left _ _) (by split_ifs <;> norm_num)⟩

theorem targetScore_pos_assets (p : RiskGauge.PortfolioSummary)
    (hA : 0 < p.totalAssets) :
    RiskGauge.targetScore (some p)
      = RiskGauge.riskScoreFromMetrics (RiskGauge.positionRatio p)
          (RiskGauge.concentration p) (RiskGauge.currentPnlPct p) := by
  rw [RiskGauge.targetScore, RiskGauge.calcMetricsScore, if_neg (not_le.mpr hA),
    Option.getD_some]

/-- C6: for a portfolio with positive total assets, the risk score is the
base 20 plus the tiered exposure (>85 → +20 else >70 → +10), concentration
(>50 → +25 else >30 → +10) and loss (< -5 → +20 else < -3 → +10) increments,
clamped to [0, 100]; the level bands are low below 30, medium below 60, high
otherwise. -/
theorem riskScore_formula_and_level (p : RiskGauge.PortfolioSummary)
    (hA : 0 < p.totalAssets) :
    RiskGauge.targetScore (some p)
      = max 0 (min (20
          + (if RiskGauge.positionRatio p > 85 then 20
             else if RiskGauge.positionRatio p > 70 then 10 else 0)
          + (if RiskGauge.concentration p > 50 then 25
             else if RiskGauge.concentration p > 30 then 10 else 0)
          + (if RiskGauge.currentPnlPct p < -5 then 20
             else if RiskGauge.currentPnlPct p < -3 then 10 else 0)) 100)
    ∧ (RiskGauge.riskLevel (RiskGauge.targetScore (some p))
        = if RiskGauge.targetScore (some p) < 30 then RiskGauge.RiskLevel.low
          else if RiskGauge.targetScore (some p) < 60 then RiskGauge.RiskLevel.medium
          else RiskGauge.RiskLevel.high) := by
  rw [targetScore_pos_assets p hA]
  exact ⟨riskScoreFromMetrics_eq_clamp _ _ _, rfl⟩

/-- Witness for C6 at the concrete scenario portfolio. -/
theorem riskScore_formula_and_level_witness :
    (0 : ℚ) < scenarioPortfolio.totalAssets
    ∧ RiskGauge.riskLevel (RiskGauge.targetScore (some scenarioPortfolio))
        = if RiskGauge.targetScore (some scenarioPortfolio) < 30 then RiskGauge.RiskLevel.low
          else if RiskGauge.targetScore (some scenarioPortfolio) < 60 then RiskGauge.RiskLevel.medium
          else RiskGauge.RiskLevel.high :=
  ⟨by norm_num [scenarioPortfolio],
   (riskScore_formula_and_level scenarioPortfolio (by norm_num [scenarioPortfolio])).2⟩

/-- Counterexample to C8: at the own input of the spec scenario (one position of
cost 100 × 10 shares at price 130, total assets 2000) the code computes a
cost-based concentration of 50% — not 65% — which triggers the +10
concentration increment (50 > 30), so the risk score is 30 — not the base
20 — and the level is medium — not low (30 is not below 30). -/
theorem riskScenario_counterexample :
    RiskGauge.positionRatio scenarioPortfolio = 65
    ∧ RiskGauge.concentration scenarioPortfolio = 50
    ∧ RiskGauge.concentration scenarioPortfolio ≠ 65
    ∧ RiskGauge.currentPnlPct scenarioPortfolio = 30
    ∧ RiskGauge.targetScore (some scenarioPortfolio) = 30
    ∧ RiskGauge.targetScore (some scenarioPortfolio) ≠ 20
    ∧ RiskGauge.riskLevel (RiskGauge.targetScore (some scenarioPortfolio))
        = RiskGauge.RiskLevel.medium := by
  norm_num [scenarioPortfolio, RiskGauge.positionRatio, RiskGauge.concentration,
    RiskGauge.maxPositionValue, RiskGauge.currentPnlPct, RiskGauge.totalCost,
    RiskGauge.targetScore, RiskGauge.calcMetricsScore,
    RiskGauge.riskScoreFromMetrics, RiskGauge.riskLevel]

/-- C8 (amended): at the scenario input, exposure ratio is 65%, cost-based
concentration is 50%, aggregate P&L percent is +30%; only the concentration
increment (+10, since 50 > 30) fires, giving risk score 30 and level
medium. -/
theorem riskScenario_amended :
    RiskGauge.positionRatio scenarioPortfolio = 65
    ∧ RiskGauge.concentration scenarioPortfolio = 50
    ∧ RiskGauge.currentPnlPct scenarioPortfolio = 30
    ∧ RiskGauge.targetScore (some scenarioPortfolio) = 30
    ∧ RiskGauge.riskLevel (RiskGauge.targetScore (some scenarioPortfolio))
        = RiskGauge.RiskLevel.medium := by
  norm_num [scenarioPortfolio, RiskGauge.positionRatio, RiskGauge.concentration,
    RiskGauge.maxPositionValue, RiskGauge.currentPnlPct, RiskGauge.totalCost,
    RiskGauge.targetScore, RiskGauge.calcMetricsScore,
    RiskGauge.riskScoreFromMetrics, RiskGauge.riskLevel]

/-- C9: with the exposure ratio and the aggregate P&L percent fixed,
increasing the concentration never decreases the risk score. -/
theorem riskScore_concentration_monotone (pr pnl c1 c2 : ℚ) (h : c1 ≤ c2) :
    RiskGauge.riskScoreFromMetrics pr c1 pnl
      ≤ RiskGauge.riskScoreFromMetrics pr c2 pnl := by
  rw [RiskGauge.riskScoreFromMetrics, RiskGauge.riskScoreFromMetrics]
  refine min_le_min ?_ le_rfl
  have hc : (if c1 > 50 then (25 : ℚ) else if c1 > 30 then 10 else 0)
      ≤ (if c2 > 50 then 25 else if c2 > 30 then 10 else 0) := by
    split_ifs <;> norm_num <;> linarith
  linarith

/-- Witness for C9 at concentrations 40 ≤ 60. -/
theorem riskScore_concentration_monotone_witness :
    (40 : ℚ) ≤ 60
    ∧ RiskGauge.riskScoreFromMetrics 30 40 0 ≤ RiskGauge.riskScoreFromMetrics 30 60 0 :=
  ⟨by norm_num, riskScore_concentration_monotone 30 0 40 60 (by norm_num)⟩

/-- C10: for a portfolio with positive total assets the risk score lies in
[20, 85]: the base 20 is a lower bound and the largest attainable total
20 + 20 + 25 + 20 = 85 keeps the clamp at 100 from ever binding. -/
theorem riskScore_bounds (p : RiskGauge.PortfolioSummary)
    (hA : 0 < p.totalAssets) :
    20 ≤ RiskGauge.targetScore (some p) ∧ RiskGauge.targetScore (some p) ≤ 85 := by
  rw [targetScore_pos_assets p hA]
  exact riskScoreFromMetrics_bounds _ _ _

/-- Witness for C10 at the concrete scenario portfolio. -/
theorem riskScore_bounds_witness :
    (0 : ℚ) < scenarioPortfolio.totalAssets
    ∧ 20 ≤ RiskGauge.targetScore (some scenarioPortfolio)
    ∧ RiskGauge.targetScore (some scenarioPortfolio) ≤ 85 :=
  ⟨by norm_num [scenarioPortfolio],
   (riskScore_bounds scenarioPortfolio (by norm_num [scenarioPortfolio])).1,
   (riskScore_bounds scenarioPortfolio (by norm_num [scenarioPortfolio])).2⟩

end QuantAI
